import Mathlib

/-!
Verification of the IoT_SmartHome backend pipeline (src/backend/main.py).

Shallow embedding conventions:
* A pandas `Timestamp` is an integer `ℤ` (epoch time); only ordering and
  differences matter to the code under verification.
* Numeric cells are `Option ℚ`: `none` models `NaN` (a missing value after
  `pd.to_numeric(errors=coerce)` / failed parsing), `some q` a finite number.
  The code never relies on float rounding, so `ℚ` is adequate.
* A dataframe is a list of typed rows plus one flag per optional column
  saying whether that column is present at all (pandas distinguishes an
  absent column, whose access raises `KeyError`, from an all-NaN column).
* `df.sort_values('time')` is modelled by a stable insertion sort on the
  `time` field.
* scikit-learn estimators are opaque: a fit is an `Except String Unit`
  supplied as a parameter (`.ok ()` = the fit returned, `.error e` = it
  raised), and trained predictors are opaque functions `List ℚ → ℚ`.
-/

/-- A canonical reading: row of the cleaned dataframe (`clean_df` output).
Field names follow the source's column names. -/
structure Reading where
  time : ℤ
  Battery : Option ℚ
  Humidity : Option ℚ
  Motion : Option ℚ
  Temperature : Option ℚ
  deriving DecidableEq, Repr

/-- Row of a raw CSV batch before cleaning: the time cell may have failed
`pd.to_datetime(errors=coerce)` (`none`). -/
structure RawRow where
  time : Option ℤ
  Battery : Option ℚ
  Humidity : Option ℚ
  Motion : Option ℚ
  Temperature : Option ℚ
  deriving DecidableEq, Repr

/-- A dataframe: which optional sensor columns are present, plus the rows.
An absent column (`hasX = false`) means every access `df['X']` raises. -/
structure DFrame where
  hasBattery : Bool
  hasHumidity : Bool
  hasMotion : Bool
  hasTemperature : Bool
  rows : List Reading
  deriving DecidableEq, Repr

/-- Raw dataframe, same column-presence flags over raw rows. -/
structure RawFrame where
  hasBattery : Bool
  hasHumidity : Bool
  hasMotion : Bool
  hasTemperature : Bool
  rows : List RawRow
  deriving DecidableEq, Repr

/-- Ordering of readings by the `time` field, the sort key of
`df.sort_values('time')`. -/
def timeLE (a b : Reading) : Prop := a.time ≤ b.time

instance : DecidableRel timeLE := fun a b => Int.decLe a.time b.time

instance : IsTotal Reading timeLE := ⟨fun a b => Int.le_total a.time b.time⟩

instance : IsTrans Reading timeLE := ⟨fun _ _ _ hab hbc => le_trans hab hbc⟩

/-- `df.sort_values('time')` (stable). -/
def sortByTime (rows : List Reading) : List Reading :=
  List.insertionSort timeLE rows

/-- `pd.to_datetime(df_local['time']).max()`: the watermark. The `[]` case
is unreachable in the source (guarded by `df_local.empty`). -/
def maxTime : List Reading → ℤ
  | [] => 0
  | [r] => r.time
  | r :: s :: t => max r.time (maxTime (s :: t))

/-- The merge step of `process_and_train` (main.py lines 178-186), the
spec's Merge Engine `merge(existing, incoming)`:
if the local store is empty the cleaned batch is taken wholesale;
otherwise rows of `incoming` strictly above the watermark are appended and
the union re-sorted by time. Returns the merged series and `new_rows`. -/
def merge (existing incoming : List Reading) : List Reading × Nat :=
  if existing.isEmpty then (incoming, incoming.length)
  else
    let lastTime := maxTime existing
    let newRows := incoming.filter (fun r => decide (lastTime < r.time))
    (sortByTime (existing ++ newRows), newRows.length)

-- ===== helper lemmas about maxTime / sortByTime =====

theorem mem_le_maxTime {r : Reading} : ∀ {rows : List Reading}, r ∈ rows → r.time ≤ maxTime rows
  | [], h => absurd h (List.not_mem_nil r)
  | [s], h => by
      rcases List.mem_singleton.mp h with rfl
      exact le_refl _
  | s :: t :: u, h => by
      rcases List.mem_cons.mp h with rfl | h2
      · exact le_max_left _ _
      · exact le_trans (mem_le_maxTime h2) (le_max_right _ _)

theorem maxTime_mem : ∀ {rows : List Reading}, rows ≠ [] → ∃ r ∈ rows, r.time = maxTime rows
  | [], h => absurd rfl h
  | [s], _ => ⟨s, List.mem_singleton_self s, rfl⟩
  | s :: t :: u, _ => by
      rcases @maxTime_mem (t :: u) (List.cons_ne_nil t u) with ⟨r, hr, hrt⟩
      rcases le_total s.time (maxTime (t :: u)) with hle | hle
      · exact ⟨r, List.mem_cons_of_mem s hr, by rw [hrt]; exact (max_eq_right hle).symm⟩
      · exact ⟨s, List.mem_cons_self s _, (max_eq_left hle).symm⟩

theorem sorted_sortByTime (rows : List Reading) : List.Sorted timeLE (sortByTime rows) :=
  List.sorted_insertionSort timeLE rows

theorem perm_sortByTime (rows : List Reading) : List.Perm (sortByTime rows) rows :=
  List.perm_insertionSort timeLE rows

theorem sortByTime_eq_of_sorted {rows : List Reading} (h : List.Sorted timeLE rows) :
    sortByTime rows = rows :=
  List.Sorted.insertionSort_eq h

-- ===== basic merge facts =====

theorem merge_empty (incoming : List Reading) :
    merge [] incoming = (incoming, incoming.length) := rfl

theorem merge_nonempty {existing : List Reading} (h : existing ≠ []) (incoming : List Reading) :
    merge existing incoming =
      (sortByTime (existing ++ incoming.filter (fun r => decide (maxTime existing < r.time))),
       (incoming.filter (fun r => decide (maxTime existing < r.time))).length) := by
  unfold merge
  rw [if_neg (by simpa [List.isEmpty_iff] using h)]

theorem merge_fst_perm {existing : List Reading} (h : existing ≠ []) (incoming : List Reading) :
    List.Perm (merge existing incoming).1
      (existing ++ incoming.filter (fun r => decide (maxTime existing < r.time))) := by
  rw [merge_nonempty h]
  exact perm_sortByTime _

theorem mem_merge_fst {existing : List Reading} (h : existing ≠ []) {incoming : List Reading}
    {r : Reading} :
    r ∈ (merge existing incoming).1 ↔
      r ∈ existing ∨ (r ∈ incoming ∧ maxTime existing < r.time) := by
  rw [(merge_fst_perm h incoming).mem_iff, List.mem_append, List.mem_filter]
  simp only [decide_eq_true_eq]

theorem merge_fst_sorted (existing : List Reading) {incoming : List Reading}
    (hinc : List.Sorted timeLE incoming) :
    List.Sorted timeLE (merge existing incoming).1 := by
  by_cases h : existing = []
  · subst h; simpa [merge] using hinc
  · rw [merge_nonempty h]; exact sorted_sortByTime _

theorem merge_fst_nonempty {existing : List Reading} (hex : existing ≠ []) (incoming : List Reading) :
    (merge existing incoming).1 ≠ [] := by
  intro hnil
  rcases List.exists_mem_of_ne_nil existing hex with ⟨r, hr⟩
  have : r ∈ (merge existing incoming).1 := (mem_merge_fst hex).mpr (Or.inl hr)
  rw [hnil] at this
  exact List.not_mem_nil r this

-- ===== C1 =====

/-- C1: merge is idempotent. For a canonical (time-sorted) series `S` and a
canonical batch, merging the batch a second time into the first result
yields `new_count = 0` and the identical merged series. -/
theorem merge_idempotent (S batch : List Reading)
    (hS : List.Sorted timeLE S) (hbatch : List.Sorted timeLE batch) :
    (merge (merge S batch).1 batch).2 = 0 ∧
      (merge (merge S batch).1 batch).1 = (merge S batch).1 := by
  by_cases hSnil : S = []
  · subst hSnil
    rw [merge_empty]
    by_cases hbnil : batch = []
    · subst hbnil; exact ⟨rfl, rfl⟩
    · have hfilt : batch.filter (fun r => decide (maxTime batch < r.time)) = [] := by
        apply List.filter_eq_nil_iff.mpr
        intro r hr
        simpa using not_lt_of_le (mem_le_maxTime hr)
      rw [merge_nonempty hbnil]
      refine ⟨by rw [hfilt]; rfl, ?_⟩
      rw [hfilt, List.append_nil]
      exact sortByTime_eq_of_sorted hbatch
  · have hm1ne : (merge S batch).1 ≠ [] := merge_fst_nonempty hSnil batch
    -- every batch row's time is ≤ the watermark of the first merge result
    have hall : ∀ r ∈ batch, ¬ (maxTime (merge S batch).1 < r.time) := by
      intro r hr
      by_cases hnew : maxTime S < r.time
      · have hmem : r ∈ (merge S batch).1 := (mem_merge_fst hSnil).mpr (Or.inr ⟨hr, hnew⟩)
        exact not_lt_of_le (mem_le_maxTime hmem)
      · rcases maxTime_mem hSnil with ⟨s, hs, hst⟩
        have hsmem : s ∈ (merge S batch).1 := (mem_merge_fst hSnil).mpr (Or.inl hs)
        have h1 : r.time ≤ maxTime S := le_of_not_lt hnew
        have h2 : maxTime S ≤ maxTime (merge S batch).1 := hst ▸ mem_le_maxTime hsmem
        exact not_lt_of_le (le_trans h1 h2)
    have hfilt : batch.filter (fun r => decide (maxTime (merge S batch).1 < r.time)) = [] := by
      apply List.filter_eq_nil_iff.mpr
      intro r hr
      simpa using hall r hr
    rw [merge_nonempty hm1ne]
    refine ⟨by rw [hfilt]; rfl, ?_⟩
    rw [hfilt, List.append_nil]
    exact sortByTime_eq_of_sorted (merge_fst_sorted S hbatch)

theorem merge_idempotent_witness :
    (merge (merge [⟨10, some 1, none, none, some 20⟩]
        [⟨11, some 1, none, none, some 21⟩, ⟨12, some 1, none, none, some 22⟩]).1
        [⟨11, some 1, none, none, some 21⟩, ⟨12, some 1, none, none, some 22⟩]).2 = 0 ∧
      (merge (merge [⟨10, some 1, none, none, some 20⟩]
        [⟨11, some 1, none, none, some 21⟩, ⟨12, some 1, none, none, some 22⟩]).1
        [⟨11, some 1, none, none, some 21⟩, ⟨12, some 1, none, none, some 22⟩]).1 =
      (merge [⟨10, some 1, none, none, some 20⟩]
        [⟨11, some 1, none, none, some 21⟩, ⟨12, some 1, none, none, some 22⟩]).1 :=
  merge_idempotent _ _ (by decide) (by decide)

-- ===== C2 =====

/-- C2: watermark deduplication. For a non-empty persisted series the merged
series is (as a multiset) the persisted rows plus exactly the incoming rows
with time strictly above the watermark; `new_rows` counts them; and an
incoming row whose time equals any persisted time is never among the
appended rows, so the persisted values at that time survive unchanged. -/
theorem merge_watermark (existing incoming : List Reading) (hne : existing ≠ []) :
    List.Perm (merge existing incoming).1
      (existing ++ incoming.filter (fun r => decide (maxTime existing < r.time))) ∧
    (merge existing incoming).2 =
      (incoming.filter (fun r => decide (maxTime existing < r.time))).length ∧
    (∀ r, r ∈ incoming.filter (fun r => decide (maxTime existing < r.time)) ↔
      r ∈ incoming ∧ maxTime existing < r.time) ∧
    (∀ r ∈ incoming, (∃ e ∈ existing, e.time = r.time) →
      r ∉ incoming.filter (fun r => decide (maxTime existing < r.time))) := by
  refine ⟨merge_fst_perm hne incoming, by rw [merge_nonempty hne], ?_, ?_⟩
  · intro r
    rw [List.mem_filter]
    simp only [decide_eq_true_eq]
  · intro r _ ⟨e, he, het⟩ hmem
    rw [List.mem_filter] at hmem
    have : maxTime existing < r.time := by simpa using hmem.2
    exact absurd this (not_lt_of_le (het ▸ mem_le_maxTime he))

/-- Spec example: A={t,temp=20} persisted, merging B={t,temp=99} drops B and
keeps temperature 20 at time t. -/
theorem merge_watermark_witness :
    (merge [⟨600, none, none, none, some 20⟩] [⟨600, none, none, none, some 99⟩]).2 = 0 ∧
    (merge [⟨600, none, none, none, some 20⟩] [⟨600, none, none, none, some 99⟩]).1 =
      [⟨600, none, none, none, some 20⟩] := by
  constructor
  · rw [(merge_watermark [⟨600, none, none, none, some 20⟩]
      [⟨600, none, none, none, some 99⟩] (by decide)).2.1]
    rfl
  · decide

-- ===== C4 =====

/-- At most one `Reading` per distinct `time` value (the spec's dedup-key
invariant on canonical series). -/
def UniqueTimes (rows : List Reading) : Prop :=
  rows.Pairwise (fun a b => a.time ≠ b.time)

instance (rows : List Reading) : Decidable (UniqueTimes rows) :=
  inferInstanceAs (Decidable (rows.Pairwise _))

/-- C4 (amended): the merge preserves uniqueness-by-time when the persisted
series and the incoming (normalized) batch each have unique times. -/
theorem merge_unique_times (existing incoming : List Reading)
    (he : UniqueTimes existing) (hi : UniqueTimes incoming) :
    UniqueTimes (merge existing incoming).1 := by
  by_cases hne : existing = []
  · subst hne; simpa [merge] using hi
  · have hpw := (merge_fst_perm hne incoming).pairwise_iff
      (fun {a b : Reading} (h : a.time ≠ b.time) => Ne.symm h)
    rw [UniqueTimes, hpw, List.pairwise_append]
    refine ⟨he, hi.filter _, ?_⟩
    intro a ha b hb
    rw [List.mem_filter] at hb
    have hbt : maxTime existing < b.time := by simpa using hb.2
    exact ne_of_lt (lt_of_le_of_lt (mem_le_maxTime ha) hbt)

theorem merge_unique_times_witness :
    UniqueTimes (merge [⟨10, none, none, none, some 20⟩]
      [⟨10, none, none, none, some 99⟩, ⟨11, none, none, none, some 21⟩]).1 :=
  merge_unique_times _ _ (by decide) (by decide)

-- ===== Reading Normalizer (clean_df, main.py lines 77-105) =====

/-- Field setters used to write one interpolated column back into a row;
each leaves `time` untouched. -/
def setBattery (r : Reading) (v : Option ℚ) : Reading := { r with Battery := v }

def setHumidity (r : Reading) (v : Option ℚ) : Reading := { r with Humidity := v }

def setMotion (r : Reading) (v : Option ℚ) : Reading := { r with Motion := v }

def setTemperature (r : Reading) (v : Option ℚ) : Reading := { r with Temperature := v }

/-- One column of a time-indexed frame: `(index timestamp, cell)` pairs. -/
def timeCol (rows : List Reading) (get : Reading → Option ℚ) : List (ℤ × Option ℚ) :=
  rows.map (fun r => (r.time, get r))

/-- The known (non-NaN) entries of a column, in order. -/
def knownEntries (l : List (ℤ × Option ℚ)) : List (ℤ × ℚ) :=
  l.filterMap (fun p => p.2.map (fun v => (p.1, v)))

/-- Latest known entry strictly before index `i`. -/
def knownBefore (l : List (ℤ × Option ℚ)) (i : ℕ) : Option (ℤ × ℚ) :=
  (knownEntries (l.take i)).getLast?

/-- Earliest known entry strictly after index `i`. -/
def knownAfter (l : List (ℤ × Option ℚ)) (i : ℕ) : Option (ℤ × ℚ) :=
  (knownEntries (l.drop (i + 1))).head?

/-- Modelled from the spec: pandas
`Series.interpolate(method='time', limit_direction='both')` (main.py line 99)
is library code, not part of src/. Per spec §4.1 step 6: a missing cell
strictly between two known entries is linearly interpolated against elapsed
time; a missing cell before the first (after the last) known entry takes
that boundary value; a column with no known entry stays missing. -/
def interpAt (l : List (ℤ × Option ℚ)) (i : ℕ) : Option ℚ :=
  match l[i]? with
  | none => none
  | some (_, some v) => some v
  | some (t, none) =>
    match knownBefore l i, knownAfter l i with
    | some pj, some pk =>
        some (pj.2 + (pk.2 - pj.2) * (((t - pj.1 : ℤ) : ℚ) / ((pk.1 - pj.1 : ℤ) : ℚ)))
    | some pj, none => some pj.2
    | none, some pk => some pk.2
    | none, none => none

/-- Rewrite every row at its index. -/
def applyIdx (f : ℕ → Reading → Reading) : ℕ → List Reading → List Reading
  | _, [] => []
  | i, r :: rs => f i r :: applyIdx f (i + 1) rs

/-- Interpolate one column of the frame (`df[num_cols].interpolate(...)`
restricted to a single column; pandas treats columns independently). -/
def interpField (rows : List Reading) (get : Reading → Option ℚ)
    (set : Reading → Option ℚ → Reading) : List Reading :=
  applyIdx (fun i r => set r (interpAt (timeCol rows get) i)) 0 rows

/-- Modelled from the spec: `df[c].median()` (main.py line 102) is library
code; the median of a numeric column ignoring NaN, `NaN` (none) when no
value exists. -/
def medianQ (xs : List ℚ) : Option ℚ :=
  let s := List.insertionSort (fun a b : ℚ => a ≤ b) xs
  if s.length = 0 then none
  else if s.length % 2 = 1 then s[s.length / 2]?
  else
    match s[s.length / 2 - 1]?, s[s.length / 2]? with
    | some a, some b => some ((a + b) / 2)
    | _, _ => none

/-- `if df[c].isna().any(): df[c].fillna(df[c].median(), inplace=True)`
(main.py lines 100-102) for one column. `fillna(NaN)` leaves NaN. -/
def fillMedianField (rows : List Reading) (get : Reading → Option ℚ)
    (set : Reading → Option ℚ → Reading) : List Reading :=
  if rows.any (fun r => (get r).isNone) then
    match medianQ (rows.filterMap get) with
    | some m => rows.map (fun r => if (get r).isNone then set r (some m) else r)
    | none => rows
  else rows

/-- Gap-fill one present column: time interpolation, then median fill. -/
def gapFillField (rows : List Reading) (get : Reading → Option ℚ)
    (set : Reading → Option ℚ → Reading) : List Reading :=
  fillMedianField (interpField rows get set) get set

/-- `df.dropna(subset=['time'])` on one raw row: a row whose time failed to
parse is dropped, the typed cells are carried over. -/
def toReading (r : RawRow) : Option Reading :=
  match r.time with
  | some t => some ⟨t, r.Battery, r.Humidity, r.Motion, r.Temperature⟩
  | none => none

/-- `clean_df` (main.py lines 77-105): drop rows with unparseable time,
sort ascending by time, then gap-fill each numeric column that is present
(interpolate against time, median-fill what remains). Column aliasing
(lines 81-86) is identity here: rows arrive with the time cell identified. -/
def clean_df (df : RawFrame) : DFrame :=
  let rows0 := df.rows.filterMap toReading
  let rows1 := sortByTime rows0
  let rows2 := if df.hasBattery then gapFillField rows1 Reading.Battery setBattery else rows1
  let rows3 := if df.hasHumidity then gapFillField rows2 Reading.Humidity setHumidity else rows2
  let rows4 := if df.hasMotion then gapFillField rows3 Reading.Motion setMotion else rows3
  let rows5 :=
    if df.hasTemperature then gapFillField rows4 Reading.Temperature setTemperature else rows4
  ⟨df.hasBattery, df.hasHumidity, df.hasMotion, df.hasTemperature, rows5⟩

-- ===== time preservation of gap filling =====

def timesOf (rows : List Reading) : List ℤ := rows.map Reading.time

theorem timesOf_applyIdx (f : ℕ → Reading → Reading)
    (hf : ∀ i r, (f i r).time = r.time) :
    ∀ (i : ℕ) (rows : List Reading), timesOf (applyIdx f i rows) = timesOf rows
  | _, [] => rfl
  | i, r :: rs => by
      simp only [applyIdx, timesOf, List.map_cons, hf i r]
      exact congrArg _ (timesOf_applyIdx f hf (i + 1) rs)

theorem timesOf_map (g : Reading → Reading) (hg : ∀ r, (g r).time = r.time)
    (rows : List Reading) : timesOf (rows.map g) = timesOf rows := by
  simp only [timesOf, List.map_map]
  exact List.map_congr_left (fun r _ => hg r)

theorem timesOf_fillMedianField (rows : List Reading) (get : Reading → Option ℚ)
    (set : Reading → Option ℚ → Reading) (hset : ∀ r v, (set r v).time = r.time) :
    timesOf (fillMedianField rows get set) = timesOf rows := by
  unfold fillMedianField
  split
  · split
    · apply timesOf_map
      intro r
      by_cases h : (get r).isNone <;> simp [h, hset]
    · rfl
  · rfl

theorem timesOf_gapFillField (rows : List Reading) (get : Reading → Option ℚ)
    (set : Reading → Option ℚ → Reading) (hset : ∀ r v, (set r v).time = r.time) :
    timesOf (gapFillField rows get set) = timesOf rows := by
  unfold gapFillField interpField
  rw [timesOf_fillMedianField _ _ _ hset, timesOf_applyIdx _ (fun i r => hset r _)]

theorem sorted_iff_timesOf {rows : List Reading} :
    List.Sorted timeLE rows ↔ (timesOf rows).Pairwise (· ≤ ·) := by
  rw [timesOf, List.pairwise_map]
  exact Iff.rfl

theorem sorted_of_timesOf_eq {l1 l2 : List Reading} (h : timesOf l1 = timesOf l2)
    (hs : List.Sorted timeLE l1) : List.Sorted timeLE l2 := by
  rw [sorted_iff_timesOf] at hs ⊢
  rwa [h] at hs

theorem clean_df_sorted (df : RawFrame) : List.Sorted timeLE (clean_df df).rows := by
  unfold clean_df
  have hb : ∀ r v, (setBattery r v).time = r.time := fun _ _ => rfl
  have hh : ∀ r v, (setHumidity r v).time = r.time := fun _ _ => rfl
  have hm : ∀ r v, (setMotion r v).time = r.time := fun _ _ => rfl
  have ht : ∀ r v, (setTemperature r v).time = r.time := fun _ _ => rfl
  apply @sorted_of_timesOf_eq (sortByTime (df.rows.filterMap toReading)) _
  · dsimp only
    split <;> split <;> split <;> split <;>
      simp only [timesOf_gapFillField _ _ _ hb, timesOf_gapFillField _ _ _ hh,
        timesOf_gapFillField _ _ _ hm, timesOf_gapFillField _ _ _ ht]
  · exact sorted_sortByTime _

-- ===== C3 =====

/-- C3: monotone ordering invariant. Every normalizer output is
non-decreasing by time, and so is every merge output (whose incoming side
is a normalizer output, hence sorted). -/
theorem pipeline_sorted (df : RawFrame) (existing incoming : List Reading)
    (hinc : List.Sorted timeLE incoming) :
    List.Sorted timeLE (clean_df df).rows ∧
      List.Sorted timeLE (merge existing incoming).1 :=
  ⟨clean_df_sorted df, merge_fst_sorted existing hinc⟩

theorem pipeline_sorted_witness :
    List.Sorted timeLE (clean_df ⟨true, false, false, true,
      [⟨some 5, some 1, none, none, some 20⟩, ⟨some 3, some 2, none, none, none⟩]⟩).rows ∧
      List.Sorted timeLE (merge [⟨1, none, none, none, some 7⟩]
        [⟨2, none, none, none, some 8⟩, ⟨4, none, none, none, some 9⟩]).1 :=
  pipeline_sorted _ _ _ (by decide)

/-- A raw batch whose two rows share one timestamp but disagree on the
value: `clean_df` keeps both (it never deduplicates within a batch). -/
def dupBatch : RawFrame :=
  ⟨false, false, false, true,
    [⟨some 0, none, none, none, some 20⟩, ⟨some 0, none, none, none, some 99⟩]⟩

/-- C4 counterexample: normalizing a batch with a repeated timestamp and
merging it into an empty persisted history yields a canonical series with
two readings at the same time, refuting uniqueness-by-time as claimed. -/
theorem normalize_merge_dup_times :
    ¬ UniqueTimes (merge [] (clean_df dupBatch).rows).1 := by decide

-- ===== C7 =====

/-- The spec's interpolation example: temperatures `[20, null, null, 26]`
at evenly spaced times. -/
def interpBatch : RawFrame :=
  ⟨false, false, false, true,
    [⟨some 0, none, none, none, some 20⟩, ⟨some 10, none, none, none, none⟩,
     ⟨some 20, none, none, none, none⟩, ⟨some 30, none, none, none, some 26⟩]⟩

/-- C7: gap filling. A missing cell with known entries on both sides is
linearly interpolated against elapsed time; a missing cell with a known
entry on only one side copies that boundary value outward; and the spec's
concrete example normalizes `[20, null, null, 26]` at evenly spaced times
to `[20, 22, 24, 26]`. -/
theorem interpolation_spec (l : List (ℤ × Option ℚ)) (i : ℕ) (t tj tk : ℤ) (vj vk : ℚ)
    (hcell : l[i]? = some (t, none))
    (hbefore : knownBefore l i = some (tj, vj))
    (hafter : knownAfter l i = some (tk, vk)) :
    interpAt l i = some (vj + (vk - vj) * (((t - tj : ℤ) : ℚ) / ((tk - tj : ℤ) : ℚ))) ∧
    (∀ (m : List (ℤ × Option ℚ)) (j : ℕ) (s tk2 : ℤ) (vk2 : ℚ),
      m[j]? = some (s, none) → knownBefore m j = none →
      knownAfter m j = some (tk2, vk2) → interpAt m j = some vk2) ∧
    (∀ (m : List (ℤ × Option ℚ)) (j : ℕ) (s tj2 : ℤ) (vj2 : ℚ),
      m[j]? = some (s, none) → knownAfter m j = none →
      knownBefore m j = some (tj2, vj2) → interpAt m j = some vj2) ∧
    (clean_df interpBatch).rows.map Reading.Temperature =
      [some 20, some 22, some 24, some 26] := by
  refine ⟨?_, ?_, ?_, by
    norm_num [clean_df, sortByTime, List.insertionSort, List.orderedInsert, gapFillField,
      fillMedianField, interpField, applyIdx, interpAt, knownBefore, knownAfter, knownEntries,
      timeCol, toReading, medianQ, setTemperature, setBattery, setHumidity, setMotion, timeLE,
      interpBatch]⟩
  · rw [interpAt, hcell, hbefore, hafter]
  · intro m j s tk2 vk2 hc hb ha
    rw [interpAt, hc, hb, ha]
  · intro m j s tj2 vj2 hc ha hb
    rw [interpAt, hc, hb, ha]

theorem interpolation_spec_witness :
    interpAt [((0 : ℤ), some (20 : ℚ)), (10, none), (20, none), (30, some 26)] 1 = some 22 ∧
    (clean_df interpBatch).rows.map Reading.Temperature =
      [some 20, some 22, some 24, some 26] := by
  have h := interpolation_spec [((0 : ℤ), some (20 : ℚ)), (10, none), (20, none), (30, some 26)]
    1 10 0 30 20 26 (by decide) (by decide) (by decide)
  refine ⟨?_, h.2.2.2⟩
  rw [h.1]
  norm_num

-- ===== Model training (train_and_save_models, main.py lines 116-152) =====

/-- A feature column the anomaly model can be fitted on. -/
inductive SensorCol
  | battery
  | humidity
  | motion
  | temperature
  | batteryDropPerMin
  deriving DecidableEq, Repr

/-- `anom_features` (main.py line 124): the present columns among
Battery, Humidity, Motion, Temperature, plus the always-added
`battery_drop_per_min`, in the source's order. -/
def anom_features (df : DFrame) : List SensorCol :=
  (if df.hasBattery then [SensorCol.battery] else []) ++
  (if df.hasHumidity then [SensorCol.humidity] else []) ++
  (if df.hasMotion then [SensorCol.motion] else []) ++
  (if df.hasTemperature then [SensorCol.temperature] else []) ++
  [SensorCol.batteryDropPerMin]

/-- A cell at a signed row offset; `none` outside the frame (this is what
`Series.shift` produces at the edges). -/
def cellAt (rows : List Reading) (get : Reading → Option ℚ) (i : ℤ) : Option ℚ :=
  if i < 0 then none
  else
    match rows[i.toNat]? with
    | some r => get r
    | none => none

/-- Row `i` survives
`dropna(subset=['temp_target_next','temp_lag_1','temp_lag_2','temp_lag_3'])`
(main.py line 139): the next-step target and the three temperature lags are
all non-null. -/
def completeRow (rows : List Reading) (i : ℕ) : Bool :=
  (cellAt rows Reading.Temperature ((i : ℤ) + 1)).isSome &&
  (cellAt rows Reading.Temperature ((i : ℤ) - 1)).isSome &&
  (cellAt rows Reading.Temperature ((i : ℤ) - 2)).isSome &&
  (cellAt rows Reading.Temperature ((i : ℤ) - 3)).isSome

/-- `len(df_model)`: the number of complete labeled rows. -/
def nComplete (rows : List Reading) : ℕ :=
  ((List.range rows.length).filter (fun i => completeRow rows i)).length

/-- Complete labeled rows of a frame, after the trainer's own re-sort. -/
def featureCompleteCount (df : DFrame) : ℕ :=
  nComplete (sortByTime df.rows)

/-- Outcome of one `train_and_save_models` call: which artifacts were
dumped, the anomaly feature set used, and the exception (if any) the call
raised. -/
structure TrainOutcome where
  anomSaved : Bool
  forecastSaved : Bool
  anomFeats : List SensorCol
  error : Option String
  deriving DecidableEq, Repr

/-- The supervised half of `train_and_save_models` (main.py lines 132-152):
builds the lag features (raising `KeyError` when Temperature (line 133) or
Motion (line 136) is absent; Battery was touched at line 119 already), and
fits/dumps the forecaster and scaler only when at least 20 complete labeled
rows exist. `rfFit` is the opaque scikit-learn fit outcome. -/
def forecastStage (rfFit : Except String Unit) (df : DFrame) (rows : List Reading)
    (anomSaved : Bool) (anomFeats : List SensorCol) : TrainOutcome :=
  if df.hasTemperature = false then ⟨anomSaved, false, anomFeats, some "KeyError: Temperature"⟩
  else if df.hasMotion = false then ⟨anomSaved, false, anomFeats, some "KeyError: Motion"⟩
  else if 20 ≤ nComplete rows then
    match rfFit with
    | .error e => ⟨anomSaved, false, anomFeats, some e⟩
    | .ok () => ⟨anomSaved, true, anomFeats, none⟩
  else ⟨anomSaved, false, anomFeats, none⟩

/-- `train_and_save_models` (main.py lines 116-152). Re-sorts by time
(line 117); the battery-drop feature block (line 119) touches
`df['Battery']` unconditionally, so an absent Battery column raises before
anything is fitted; the anomaly model is fitted and dumped when the feature
matrix has at least 10 rows (`fillna(0)` keeps every row, so this is the
row count); then the supervised stage runs. An exception anywhere
propagates, skipping the rest of the function. -/
def train_and_save_models (anomFit rfFit : Except String Unit) (df : DFrame) : TrainOutcome :=
  let rows := sortByTime df.rows
  if df.hasBattery = false then ⟨false, false, [], some "KeyError: Battery"⟩
  else if 10 ≤ rows.length then
    match anomFit with
    | .error e => ⟨false, false, [], some e⟩
    | .ok () => forecastStage rfFit df rows true (anom_features df)
  else forecastStage rfFit df rows false []

theorem forecastStage_keeps (rfFit : Except String Unit) (df : DFrame) (rows : List Reading)
    (b : Bool) (fs : List SensorCol) :
    (forecastStage rfFit df rows b fs).anomSaved = b ∧
      (forecastStage rfFit df rows b fs).anomFeats = fs := by
  cases rfFit <;> unfold forecastStage <;> split_ifs <;> exact ⟨rfl, rfl⟩

-- ===== C5 =====

/-- C5: training gating. With all three required columns present and both
fits succeeding, the anomaly model is dumped exactly when the frame has at
least 10 rows, the forecaster and scaler exactly when at least 20 complete
labeled rows exist, and no exception is raised (below a threshold the
trainer simply writes nothing). -/
theorem training_gating (df : DFrame) (anomFit rfFit : Except String Unit)
    (hb : df.hasBattery = true) (ht : df.hasTemperature = true) (hm : df.hasMotion = true)
    (ha : anomFit = Except.ok ()) (hr : rfFit = Except.ok ()) :
    ((train_and_save_models anomFit rfFit df).anomSaved = true ↔ 10 ≤ df.rows.length) ∧
    ((train_and_save_models anomFit rfFit df).forecastSaved = true ↔
      20 ≤ featureCompleteCount df) ∧
    (train_and_save_models anomFit rfFit df).error = none := by
  subst ha hr
  have hlen : (sortByTime df.rows).length = df.rows.length :=
    (perm_sortByTime df.rows).length_eq
  unfold train_and_save_models forecastStage
  rw [featureCompleteCount] at *
  by_cases h10 : 10 ≤ df.rows.length <;>
    by_cases h20 : 20 ≤ nComplete (sortByTime df.rows) <;>
    simp [hb, ht, hm, hlen, h10, h20]

theorem training_gating_witness :
    (train_and_save_models (Except.ok ()) (Except.ok ())
      ⟨true, true, true, true, [⟨0, some 1, some 1, some 1, some 20⟩]⟩).anomSaved = false ∧
    (train_and_save_models (Except.ok ()) (Except.ok ())
      ⟨true, true, true, true, [⟨0, some 1, some 1, some 1, some 20⟩]⟩).error = none := by
  have h := training_gating ⟨true, true, true, true, [⟨0, some 1, some 1, some 1, some 20⟩]⟩
    (Except.ok ()) (Except.ok ()) rfl rfl rfl rfl rfl
  refine ⟨?_, h.2.2⟩
  by_cases hs : (train_and_save_models (Except.ok ()) (Except.ok ())
      ⟨true, true, true, true, [⟨0, some 1, some 1, some 1, some 20⟩]⟩).anomSaved = true
  · exact absurd (h.1.mp hs) (by decide)
  · simpa using hs

-- ===== C8 =====

/-- Ten readings with no Battery column (`hasBattery = false`, every
Battery cell NaN), all other sensors present. -/
def noBatteryDF : DFrame :=
  ⟨false, true, true, true,
    [⟨0, none, some 50, some 0, some 20⟩, ⟨1, none, some 50, some 0, some 20⟩,
     ⟨2, none, some 50, some 0, some 20⟩, ⟨3, none, some 50, some 0, some 20⟩,
     ⟨4, none, some 50, some 0, some 20⟩, ⟨5, none, some 50, some 0, some 20⟩,
     ⟨6, none, some 50, some 0, some 20⟩, ⟨7, none, some 50, some 0, some 20⟩,
     ⟨8, none, some 50, some 0, some 20⟩, ⟨9, none, some 50, some 0, some 20⟩]⟩

/-- C8 counterexample: with the Battery column entirely absent and 10 rows
available, `train_and_save_models` raises `KeyError` at the battery-drop
feature (line 119) before any fit, so anomaly training fails instead of
fitting over the present columns. -/
theorem anomaly_absent_battery_raises :
    (train_and_save_models (Except.ok ()) (Except.ok ()) noBatteryDF).error =
      some "KeyError: Battery" ∧
    (train_and_save_models (Except.ok ()) (Except.ok ()) noBatteryDF).anomSaved = false ∧
    10 ≤ noBatteryDF.rows.length := by decide

/-- C8 (amended): anomaly training tolerates only an absent Humidity
column. With Battery, Motion and Temperature present, at least 10 rows and
a succeeding fit, the anomaly model is fitted and dumped over exactly the
present feature columns (Humidity excluded from the feature set when
absent); an absent Battery, Temperature or Motion column instead raises. -/
theorem anomaly_tolerates_missing_humidity (df : DFrame) (anomFit rfFit : Except String Unit)
    (hb : df.hasBattery = true) (ht : df.hasTemperature = true) (hm : df.hasMotion = true)
    (h10 : 10 ≤ df.rows.length) (ha : anomFit = Except.ok ()) :
    (train_and_save_models anomFit rfFit df).anomSaved = true ∧
    (train_and_save_models anomFit rfFit df).anomFeats = anom_features df ∧
    (df.hasHumidity = false → SensorCol.humidity ∉ anom_features df) := by
  subst ha
  have hlen : (sortByTime df.rows).length = df.rows.length :=
    (perm_sortByTime df.rows).length_eq
  have hkeep := forecastStage_keeps rfFit df (sortByTime df.rows) true (anom_features df)
  refine ⟨?_, ?_, ?_⟩
  · unfold train_and_save_models
    simp only [hb, hlen, h10, if_pos, Bool.true_eq_false, if_false, if_true]
    exact hkeep.1
  · unfold train_and_save_models
    simp only [hb, hlen, h10, if_pos, Bool.true_eq_false, if_false, if_true]
    exact hkeep.2
  · intro hh
    unfold anom_features
    rw [hh]
    split_ifs <;> simp_all

/-- Ten readings with the Humidity column entirely absent. -/
def noHumidityDF : DFrame :=
  ⟨true, false, true, true,
    [⟨0, some 3, none, some 0, some 20⟩, ⟨1, some 3, none, some 0, some 20⟩,
     ⟨2, some 3, none, some 0, some 20⟩, ⟨3, some 3, none, some 0, some 20⟩,
     ⟨4, some 3, none, some 0, some 20⟩, ⟨5, some 3, none, some 0, some 20⟩,
     ⟨6, some 3, none, some 0, some 20⟩, ⟨7, some 3, none, some 0, some 20⟩,
     ⟨8, some 3, none, some 0, some 20⟩, ⟨9, some 3, none, some 0, some 20⟩]⟩

theorem anomaly_tolerates_missing_humidity_witness :
    (train_and_save_models (Except.ok ()) (Except.ok ()) noHumidityDF).anomSaved = true ∧
    (train_and_save_models (Except.ok ()) (Except.ok ()) noHumidityDF).anomFeats =
      anom_features noHumidityDF ∧
    (noHumidityDF.hasHumidity = false → SensorCol.humidity ∉ anom_features noHumidityDF) :=
  anomaly_tolerates_missing_humidity noHumidityDF (Except.ok ()) (Except.ok ())
    rfl rfl rfl (by decide) rfl

-- ===== Orchestrator (process_and_train, main.py lines 155-193) =====

/-- Cross-cycle persistent state: the local parquet snapshot and whether
each model artifact file exists. -/
structure PipelineState where
  store : DFrame
  anomArt : Bool
  forecastArt : Bool
  deriving DecidableEq, Repr

/-- The frame-level merge (main.py lines 178-186): `pd.concat` unions the
column sets; the row logic is `merge`. -/
def mergeFrames (existing incoming : DFrame) : DFrame × Nat :=
  if existing.rows.isEmpty then (incoming, incoming.rows.length)
  else
    ({ hasBattery := existing.hasBattery || incoming.hasBattery,
       hasHumidity := existing.hasHumidity || incoming.hasHumidity,
       hasMotion := existing.hasMotion || incoming.hasMotion,
       hasTemperature := existing.hasTemperature || incoming.hasTemperature,
       rows := (merge existing.rows incoming.rows).1 },
     (merge existing.rows incoming.rows).2)

/-- `process_and_train` (main.py lines 155-193) after a successful fetch
and parse: clean the batch (abort if empty), merge against the store; with
no new rows nothing is persisted or trained; otherwise the merged series is
saved FIRST and only then are the models trained, so a training exception
(returned in the second component) leaves the merged series persisted and
any artifact dumped before the exception in place. -/
def process_and_train (anomFit rfFit : Except String Unit) (raw : RawFrame)
    (st : PipelineState) : PipelineState × Option String :=
  let df_clean := clean_df raw
  if df_clean.rows.isEmpty then (st, none)
  else
    let m := mergeFrames st.store df_clean
    if m.2 = 0 then (st, none)
    else
      let out := train_and_save_models anomFit rfFit m.1
      ({ store := m.1,
         anomArt := st.anomArt || out.anomSaved,
         forecastArt := st.forecastArt || out.forecastSaved }, out.error)

-- ===== C9 =====

/-- A raw batch of 24 fully populated readings (so the merged series has 24
rows, 20 of them complete labeled rows). -/
def rawBig : RawFrame :=
  ⟨true, true, true, true,
    (List.range 24).map (fun i => ⟨some (i : ℤ), some 1, some 1, some 1, some 20⟩)⟩

/-- C9 counterexample: the merged series is persisted and has 20 complete
labeled rows (enough for forecast training), yet when the anomaly fit
raises, the exception propagates and the forecast trainer never runs: the
sibling trainer IS blocked. -/
theorem trainer_isolation_fails :
    (process_and_train (Except.error "anomaly fit failed") (Except.ok ()) rawBig
      ⟨⟨false, false, false, false, []⟩, false, false⟩).1.forecastArt = false ∧
    20 ≤ featureCompleteCount
      (process_and_train (Except.error "anomaly fit failed") (Except.ok ()) rawBig
        ⟨⟨false, false, false, false, []⟩, false, false⟩).1.store ∧
    (process_and_train (Except.error "anomaly fit failed") (Except.ok ()) rawBig
      ⟨⟨false, false, false, false, []⟩, false, false⟩).2 = some "anomaly fit failed" := by
  decide

/-- C9 (amended): the persisted series is never rolled back by a trainer
failure, and a forecast-trainer failure does not block the anomaly trainer:
when new rows were merged (with the required columns and both row minimums
met), a failing forecast fit still leaves the merged series persisted, the
anomaly artifact written, and the exception surfaced; a failing anomaly fit
also leaves the merged series persisted, but the forecast trainer does not
run (its artifact flag is unchanged). -/
theorem trainer_failure_no_rollback (raw : RawFrame) (st : PipelineState) (e : String)
    (hcne : (clean_df raw).rows.isEmpty = false)
    (hnew : (mergeFrames st.store (clean_df raw)).2 ≠ 0)
    (hb : (mergeFrames st.store (clean_df raw)).1.hasBattery = true)
    (ht : (mergeFrames st.store (clean_df raw)).1.hasTemperature = true)
    (hm : (mergeFrames st.store (clean_df raw)).1.hasMotion = true)
    (h10 : 10 ≤ (mergeFrames st.store (clean_df raw)).1.rows.length)
    (h20 : 20 ≤ featureCompleteCount (mergeFrames st.store (clean_df raw)).1) :
    ((process_and_train (Except.ok ()) (Except.error e) raw st).1.store =
        (mergeFrames st.store (clean_df raw)).1 ∧
      (process_and_train (Except.ok ()) (Except.error e) raw st).1.anomArt = true ∧
      (process_and_train (Except.ok ()) (Except.error e) raw st).2 = some e) ∧
    ((process_and_train (Except.error e) (Except.ok ()) raw st).1.store =
        (mergeFrames st.store (clean_df raw)).1 ∧
      (process_and_train (Except.error e) (Except.ok ()) raw st).1.forecastArt =
        st.forecastArt) := by
  have hlen := (perm_sortByTime (mergeFrames st.store (clean_df raw)).1.rows).length_eq
  rw [featureCompleteCount] at h20
  rw [sortByTime] at hlen
  unfold process_and_train train_and_save_models forecastStage
  simp only [hcne, hnew, hb, ht, hm, Bool.false_eq_true, if_false, ite_false, ite_true,
    Bool.true_eq_false, sortByTime, hlen, h10, if_pos, if_true]
  rw [sortByTime] at h20
  simp [h20]

theorem trainer_failure_no_rollback_witness :
    (process_and_train (Except.ok ()) (Except.error "fit failed") rawBig
      ⟨⟨false, false, false, false, []⟩, false, false⟩).1.store =
      (mergeFrames ⟨false, false, false, false, []⟩ (clean_df rawBig)).1 ∧
    (process_and_train (Except.ok ()) (Except.error "fit failed") rawBig
      ⟨⟨false, false, false, false, []⟩, false, false⟩).1.anomArt = true ∧
    (process_and_train (Except.error "fit failed") (Except.ok ()) rawBig
      ⟨⟨false, false, false, false, []⟩, false, false⟩).1.forecastArt = false := by
  have h := trainer_failure_no_rollback rawBig ⟨⟨false, false, false, false, []⟩, false, false⟩
    "fit failed" (by decide) (by decide) (by decide) (by decide) (by decide) (by decide)
    (by decide)
  exact ⟨h.1.1, h.1.2.1, h.2.2⟩

-- ===== Prediction (predict_temperature, main.py lines 254-279) =====

/-- `round(float(pred[0]), 2)`: round to 2 decimal places (the float
banker's-rounding tie rule is abstracted by Mathlib's `round`; no claim
depends on ties). -/
def round2 (q : ℚ) : ℚ := (round (q * 100) : ℚ) / 100

/-- `predict_temperature` (main.py lines 254-279). An empty store returns a
null prediction before anything else; a missing forecast-model or scaler
artifact is caught (`FileNotFoundError`) and also yields null; otherwise
the feature vector `[T, T, T, M, B]` is built from the LAST row only
(`df.iloc[-1]`, raising `KeyError` when a needed column is absent and
`ValueError` downstream when a needed cell is NaN), scaled, predicted and
rounded. `rf` and `scaler` are the opaque loaded artifacts. -/
def predict_temperature (df : DFrame) (rf : Option (List ℚ → ℚ))
    (scaler : Option (List ℚ → List ℚ)) : Except String (Option ℚ) :=
  match df.rows.getLast? with
  | none => Except.ok none
  | some last =>
    match rf, scaler with
    | some rfModel, some sc =>
      if df.hasTemperature = false then Except.error "KeyError: Temperature"
      else if df.hasMotion = false then Except.error "KeyError: Motion"
      else if df.hasBattery = false then Except.error "KeyError: Battery"
      else
        match last.Temperature, last.Motion, last.Battery with
        | some t, some m, some b => Except.ok (some (round2 (rfModel (sc [t, t, t, m, b]))))
        | _, _, _ => Except.error "ValueError: NaN in input"
    | _, _ => Except.ok none

-- ===== C6 =====

/-- C6: prediction unavailability. With an empty persisted store, or with
the forecast model or scaler artifact missing, `predict_temperature`
returns a null prediction (`ok none`) and raises no exception. -/
theorem prediction_unavailable (df : DFrame) (rf : Option (List ℚ → ℚ))
    (scaler : Option (List ℚ → List ℚ))
    (h : df.rows = [] ∨ rf = none ∨ scaler = none) :
    predict_temperature df rf scaler = Except.ok none := by
  unfold predict_temperature
  rcases h with h | h | h
  · rw [h]
    rfl
  · subst h
    cases df.rows.getLast? <;> rfl
  · subst h
    cases df.rows.getLast? with
    | none => rfl
    | some last => cases rf <;> rfl

theorem prediction_unavailable_witness :
    predict_temperature ⟨true, true, true, true, []⟩ (some (fun _ => 5)) (some (fun l => l)) =
      Except.ok none ∧
    predict_temperature ⟨true, true, true, true, [⟨0, some 1, some 1, some 1, some 20⟩]⟩
      none none = Except.ok none :=
  ⟨prediction_unavailable _ _ _ (Or.inl rfl),
   prediction_unavailable _ _ _ (Or.inr (Or.inl rfl))⟩

-- ===== C10 =====

/-- C10: the prediction reads only the final persisted row. Two stores
(with the needed columns present) whose last rows agree on Temperature,
Motion and Battery give identical predictions under the same loaded model
and scaler; earlier readings are never consulted. -/
theorem prediction_last_row_only (df1 df2 : DFrame) (rfModel : List ℚ → ℚ)
    (sc : List ℚ → List ℚ) (r1 r2 : Reading)
    (h1 : df1.rows.getLast? = some r1) (h2 : df2.rows.getLast? = some r2)
    (hT : r1.Temperature = r2.Temperature) (hM : r1.Motion = r2.Motion)
    (hB : r1.Battery = r2.Battery)
    (f1T : df1.hasTemperature = true) (f1M : df1.hasMotion = true)
    (f1B : df1.hasBattery = true)
    (f2T : df2.hasTemperature = true) (f2M : df2.hasMotion = true)
    (f2B : df2.hasBattery = true) :
    predict_temperature df1 (some rfModel) (some sc) =
      predict_temperature df2 (some rfModel) (some sc) := by
  unfold predict_temperature
  rw [h1, h2, f1T, f1M, f1B, f2T, f2M, f2B]
  simp only [hT, hM, hB]

theorem prediction_last_row_only_witness :
    predict_temperature ⟨true, true, true, true,
        [⟨0, some 9, some 9, some 9, some 9⟩, ⟨1, some 3, some 50, some 0, some 21⟩]⟩
      (some (fun l => l.headD 0)) (some (fun l => l)) =
    predict_temperature ⟨true, true, true, true, [⟨7, some 3, some 99, some 0, some 21⟩]⟩
      (some (fun l => l.headD 0)) (some (fun l => l)) :=
  prediction_last_row_only _ _ _ _ ⟨1, some 3, some 50, some 0, some 21⟩
    ⟨7, some 3, some 99, some 0, some 21⟩ rfl rfl rfl rfl rfl rfl rfl rfl rfl rfl rfl
